import Mathlib

/-!
Shallow embedding of the two bot programs of this repository:
  * `src/main.py`  — the content-relay ("restricted saver") variant;
  * `src/bot.py`   — the GitHub-repository-creator bot.

Handlers are embedded as pure functions over an explicit per-user state.
External collaborators (the messaging platform, the hosting platform, the
document store) are modelled by outcome parameters: each outbound call's
result is an argument of the handler, and the handler's observable effects
(replies sent, copy/create calls issued, sleeps performed) are returned in
a result record.  An uncaught Python exception is modelled by `Except.error`.
-/

/-- Python `s.strip()`: remove leading and trailing whitespace. -/
def pyTrim (s : String) : String :=
  String.mk (((s.toList.dropWhile fun c => c.isWhitespace).reverse.dropWhile
    fun c => c.isWhitespace).reverse)

/-- Python `s.lower()` (ASCII case folding). -/
def pyLower (s : String) : String :=
  String.mk (s.toList.map Char.toLower)

namespace Relay

/-! ## src/main.py : data model

A user document in `users_collection` holds a `status` field
("active" / "banned").  We model one user's document; `none` means the
document does not exist. -/

structure RelayState where
  status : Option String
deriving Repr, DecidableEq

/-- `is_logged_in` (src/main.py:50-52): the user counts as logged in iff a
document with `status = "active"` exists. -/
def is_logged_in (st : RelayState) : Bool :=
  st.status = some "active"

/-- `add_user` (src/main.py:54-59): upsert `status := "active"`. -/
def add_user (_st : RelayState) : RelayState :=
  { status := some "active" }

/-- `ban_user` (src/main.py:61-65): `update_one` without upsert — the write
applies only when the document exists. -/
def ban_user (st : RelayState) : RelayState :=
  if st.status.isSome then { status := some "banned" } else st

/-- `unban_user` (src/main.py:67-71). -/
def unban_user (st : RelayState) : RelayState :=
  if st.status.isSome then { status := some "active" } else st

/-- `/login` handler (src/main.py:78-87).  `cmd` is pyrogram's
`message.command` list (`["login", password]`); `userPassword` is the
`USER_PASSWORD` environment value.  Returns the new state and the replies. -/
def login (st : RelayState) (cmd : List String) (userPassword : String) :
    RelayState × List String :=
  if cmd.length < 2 then
    (st, ["Usage: /login <password>"])
  else if cmd.getD 1 "" = userPassword then
    (add_user st, ["Logged in successfully! You can now use /save."])
  else
    (st, ["Incorrect password."])

/-! ## src/main.py : the /save link logic -/

/-- Python `s.strip(c)`: remove every leading and trailing occurrence of `c`. -/
def pyStrip (c : Char) (s : String) : String :=
  String.mk (((s.toList.dropWhile (· = c)).reverse.dropWhile (· = c)).reverse)

/-- Python `s.split(c)` on the character level: splitting the empty string
yields `[""]`, like Python. -/
def pySplit (c : Char) : List Char → List (List Char)
  | [] => [[]]
  | x :: xs =>
    match pySplit c xs with
    | [] => [[]]
    | h :: t => if x = c then [] :: h :: t else (x :: h) :: t

/-- `parsed.path.strip("/").split("/")` (src/main.py:101). -/
def path_parts_of (path : String) : List String :=
  (pySplit '/' (pyStrip '/' path).toList).map fun cs => String.mk cs

/-- A non-empty all-digit character list read as a base-10 number. -/
def pyNatDigits (cs : List Char) : Option Nat :=
  if cs = [] then none
  else if cs.all (fun c => c.isDigit) then
    some (cs.foldl (fun a c => a * 10 + (c.toNat - 48)) 0)
  else none

/-- Python `int(s)` on a URL segment: an optional sign followed by
digits. -/
def pyInt (s : String) : Option Int :=
  match s.toList with
  | [] => none
  | '-' :: cs => (pyNatDigits cs).map fun n => -(n : Int)
  | '+' :: cs => (pyNatDigits cs).map fun n => (n : Int)
  | cs => (pyNatDigits cs).map fun n => (n : Int)

/-- The chat identifier passed to `copy_message`: an integer id for private
links, an "@username" string for public ones. -/
inductive ChatRef where
  | byId (id : Int)
  | byUsername (name : String)
deriving Repr, DecidableEq

/-- The two kinds of exception the link-resolution code can raise:
`ValueError` is caught by the handler; `IndexError` is not. -/
inductive LinkErr where
  | valueError
  | indexError
deriving Repr, DecidableEq

/-- Link resolution (src/main.py:101-110), following Python's evaluation
order.  Fewer than two segments raises `ValueError("Invalid link")`.  With
first segment `"c"`: `int(parts[1])` (ValueError if non-integer), then
`parts[2]` (IndexError if absent), then `int(parts[2])`; the chat id is
`-100 - int(parts[1])`.  Otherwise the chat is `"@" ++ parts[0]` and the
message id `int(parts[1])`. -/
def resolveLink (parts : List String) : Except LinkErr (ChatRef × Int) :=
  if parts.length < 2 then .error .valueError
  else if parts.headD "" = "c" then
    match pyInt (parts.getD 1 "") with
    | none => .error .valueError
    | some x =>
      match parts[2]? with
      | none => .error .indexError
      | some s2 =>
        match pyInt s2 with
        | none => .error .valueError
        | some y => .ok (ChatRef.byId (-100 - x), y)
  else
    match pyInt (parts.getD 1 "") with
    | none => .error .valueError
    | some y => .ok (ChatRef.byUsername ("@" ++ parts.headD ""), y)

/-- Outcome of one `copy_message` attempt. -/
inductive CopyOutcome where
  | ok
  | rpcForbidden (msg : String)  -- RPCError mentioning CHAT_FORBIDDEN / CHAT_ADMIN_REQUIRED
  | rpcOther (msg : String)
  | floodWait (seconds : Nat)
deriving Repr, DecidableEq

/-- Observable effects of one `/save` invocation (including its recursive
retries): replies sent, `copy_message` calls issued, sleeps performed, and
an uncaught exception if one escaped the handler. -/
structure SaveOut where
  replies : List String
  copyCalls : List (ChatRef × Int)
  sleeps : List Nat
  uncaught : Option String
deriving Repr, DecidableEq

/-- Result of one pass through the `/save` handler body: either the handler
finished (with its observable effects), or the `copy_message` attempt at
`(chat, mid)` raised `FloodWait` and the handler will sleep `seconds` and
re-enter itself (src/main.py:126-128). -/
inductive SaveStep where
  | done (out : SaveOut)
  | retryAfter (chat : ChatRef) (mid : Int) (seconds : Nat)
deriving Repr, DecidableEq

/-- One pass through the `/save` handler body (src/main.py:89-128), in
source order: login check, argument check, link resolution, then the
`copy_message` attempt whose outcome is `o` (`none` when the model ran out
of supplied outcomes).  `cmd` is `message.command`; `urlpath` models the
external `urlparse(link).path`. -/
def save_content_step (st : RelayState) (cmd : List String)
    (urlpath : String → String) (o : Option CopyOutcome) : SaveStep :=
  if is_logged_in st = false then
    .done ⟨["Please /login first."], [], [], none⟩
  else if cmd.length < 2 then
    .done ⟨["Usage: /save <message_link>"], [], [], none⟩
  else
    match resolveLink (path_parts_of (urlpath (cmd.getD 1 ""))) with
    | .error .valueError => .done ⟨["Invalid link format."], [], [], none⟩
    | .error .indexError => .done ⟨[], [], [], some "IndexError"⟩
    | .ok (chat, mid) =>
      match o with
      | none => .done ⟨[], [], [], some "model: outcome list exhausted"⟩
      | some .ok =>
        .done ⟨["Content saved and sent!"], [(chat, mid)], [], none⟩
      | some (.rpcForbidden _) =>
        .done ⟨["Add me to the channel/group as a member to access."], [(chat, mid)], [], none⟩
      | some (.rpcOther _) =>
        .done ⟨["Error fetching content. Check logs."], [(chat, mid)], [], none⟩
      | some (.floodWait n) => .retryAfter chat mid n

/-- `/save` handler (src/main.py:89-128) including its recursive
`FloodWait` retries: each invocation runs the full body
(`save_content_step`) on the next supplied `copy_message` outcome; on
`FloodWait` it records the attempted call and the sleep and re-enters
itself on the remaining outcomes, exactly like the
`await save_content(client, message)` self-call of the source. -/
def save_content (st : RelayState) (cmd : List String)
    (urlpath : String → String) : List CopyOutcome → SaveOut
  | [] =>
    match save_content_step st cmd urlpath none with
    | .done out => out
    | .retryAfter _ _ _ => ⟨[], [], [], some "model: outcome list exhausted"⟩
  | o :: rest =>
    match save_content_step st cmd urlpath (some o) with
    | .done out => out
    | .retryAfter chat mid n =>
      let r := save_content st cmd urlpath rest
      ⟨r.replies, (chat, mid) :: r.copyCalls, n :: r.sleeps, r.uncaught⟩

end Relay

namespace RepoBot

/-! ## src/bot.py : data model

One user's document in `users_collection`.  Every field is optional: a
Mongo `$unset` removes it, a `$set` (re)creates it.  `repo_description`
is doubly optional: the outer `Option` is field presence, the inner one is
the stored value (Python `None` for the "none" sentinel). -/

structure UserDoc where
  login_step : Option String := none
  phone : Option String := none
  phone_code_hash : Option String := none
  repo_step : Option String := none
  repo_name : Option String := none
  repo_description : Option (Option String) := none
deriving Repr, DecidableEq

/-- Per-user persistent state: the user document (`none` = no document),
the `sessions_collection` entry (StoredSession) and the
`github_tokens_collection` entry (StoredGithubToken). -/
structure BotState where
  user : Option UserDoc
  session : Option String
  githubToken : Option String
deriving Repr, DecidableEq

/-! ## External-call outcomes

Each outbound call of a handler is represented by its outcome, injected as
a parameter.  Constructors mirror the `except` clauses of the source. -/

/-- Outcome of `app.start(); app.send_code(phone)` in the `phone` step. -/
inductive SendCodeResult where
  | success (phone_code_hash : String)
  | phoneNumberInvalid
  | otherError (msg : String)
deriving Repr, DecidableEq

/-- Outcome of `app.sign_in(...)`; on success the value carried is the
string produced by `app.export_session_string()`. -/
inductive SignInResult where
  | success (string_session : String)
  | sessionPasswordNeeded
  | phoneCodeInvalid
  | otherError (msg : String)
deriving Repr, DecidableEq

/-- Outcome of `app.check_password(...)` plus session export. -/
inductive CheckPasswordResult where
  | success (string_session : String)
  | otherError (msg : String)
deriving Repr, DecidableEq

/-- Outcome of `Github(token).get_user().login` (token validation). -/
inductive TokenCheckResult where
  | valid
  | githubError (msg : String)
  | otherError (msg : String)
deriving Repr, DecidableEq

/-- Bundle of the possible external-call outcomes consulted by
`login_steps`; only the one matching the current step is used. -/
structure LoginExt where
  sendCode : SendCodeResult
  signIn : SignInResult
  checkPassword : CheckPasswordResult
  tokenCheck : TokenCheckResult
deriving Repr, DecidableEq

/-- `login_steps` (src/bot.py:186-253).  `text` is the incoming message
text.  Returns `Except.error` for an uncaught Python exception (the
`user_doc["phone"]` / `user_doc["phone_code_hash"]` lookups sit outside the
`try` blocks and raise `KeyError` when the field is absent); otherwise the
new state and the replies sent. -/
def login_steps (st : BotState) (text : String) (ext : LoginExt) :
    Except String (BotState × List String) :=
  match st.user with
  | none => .ok (st, [])
  | some doc =>
    match doc.login_step with
    | none => .ok (st, [])
    | some step =>
      if step = "phone" then
        -- phone := message.text.strip(); the phone and hash are $set together
        let phone := pyTrim text
        match ext.sendCode with
        | .success hash =>
          let doc' := { doc with login_step := some "code", phone := some phone,
                                 phone_code_hash := some hash }
          .ok ({ st with user := some doc' },
               ["📩 Code sent to your Telegram. Reply with the code."])
        | .phoneNumberInvalid =>
          .ok (st, ["❌ Invalid phone number. Try again."])
        | .otherError m => .ok (st, ["❌ Error: " ++ m])
      else if step = "code" then
        match doc.phone, doc.phone_code_hash with
        | some _, some _ =>
          match ext.signIn with
          | .success sess =>
            let doc' := { doc with login_step := none, phone := none,
                                   phone_code_hash := none }
            .ok ({ st with session := some sess, user := some doc' },
                 ["✅ Telegram login successful! Now use GitHub login or /create."])
          | .sessionPasswordNeeded =>
            .ok ({ st with user := some { doc with login_step := some "password" } },
                 ["🔒 2FA enabled. Send your password."])
          | .phoneCodeInvalid =>
            .ok (st, ["❌ Invalid code. Try again."])
          | .otherError m => .ok (st, ["❌ Error: " ++ m])
        | _, _ => .error "KeyError"
      else if step = "password" then
        match doc.phone with
        | some _ =>
          match ext.checkPassword with
          | .success sess =>
            let doc' := { doc with login_step := none, phone := none,
                                   phone_code_hash := none }
            .ok ({ st with session := some sess, user := some doc' },
                 ["✅ Telegram login successful! Now use GitHub login or /create."])
          | .otherError m => .ok (st, ["❌ Error: " ++ m])
        | none => .error "KeyError"
      else if step = "github_token" then
        let token := pyTrim text
        match ext.tokenCheck with
        | .valid =>
          let doc' := { doc with login_step := none }
          .ok ({ st with githubToken := some token, user := some doc' },
               ["✅ GitHub login successful! Use /create to make a repository."])
        | .githubError m => .ok (st, ["❌ Invalid GitHub token: " ++ m])
        | .otherError m => .ok (st, ["❌ Error: " ++ m])
      else .ok (st, [])

/-! ## src/bot.py : repository wizard -/

/-- `/create` command (src/bot.py:322-335).  Checks StoredSession then
StoredGithubToken; state is never written here.  The returned `Bool` is
whether the "Create Repository" button was offered. -/
def create_command (st : BotState) : List String × Bool :=
  if st.session = none then
    (["❌ Please login to Telegram first using /start > Telegram Login."], false)
  else if st.githubToken = none then
    (["❌ Please login to GitHub first using /start > GitHub Login."], false)
  else
    (["Ready to create a GitHub repository! Click below:"], true)

/-- `handle_create_repo_start` (src/bot.py:337-340): `$set repo_step = "name"`
(an `update_one` without upsert, so a missing document stays missing). -/
def handle_create_repo_start (st : BotState) : BotState × List String :=
  let reply := "📁 **Create Repository:**\n\nSend the repository name (e.g., my-new-repo):"
  match st.user with
  | none => (st, [reply])
  | some doc => ({ st with user := some { doc with repo_step := some "name" } }, [reply])

/-- The "create repository" entry path: the `/create` command, followed —
only when the gate passed and the button was offered — by the
`create_repo` button press dispatching to `handle_create_repo_start`
(src/bot.py:161-162). -/
def createRepoAction (st : BotState) : BotState × List String :=
  let (replies, shown) := create_command st
  if shown then
    let (st', replies') := handle_create_repo_start st
    (st', replies ++ replies')
  else
    (st, replies)

/-- `repo_steps` (src/bot.py:342-363): the `name` and `description` text
steps of the wizard. -/
def repo_steps (st : BotState) (text : String) : BotState × List String :=
  match st.user with
  | none => (st, [])
  | some doc =>
    match doc.repo_step with
    | none => (st, [])
    | some step =>
      if step = "name" then
        let repo_name := pyTrim text
        let doc' := { doc with repo_name := some repo_name,
                               repo_step := some "description" }
        ({ st with user := some doc' },
         ["Send the repository description (or 'None' to skip):"])
      else if step = "description" then
        -- description = text.strip() if text.strip().lower() != "none" else None
        let d := if pyLower (pyTrim text) ≠ "none" then some (pyTrim text) else none
        let doc' := { doc with repo_description := some d,
                               repo_step := some "visibility" }
        ({ st with user := some doc' },
         ["Choose repository visibility:"])
      else (st, [])

/-- Arguments of the `user.create_repo(...)` call (src/bot.py:378-383). -/
structure CreateRepoArgs where
  name : String
  description : Option String
  is_private : Bool
  auto_init : Bool
deriving Repr, DecidableEq

/-- Outcome of the `try` block of `handle_repo_visibility`, by raise site:
`success` — `create_repo` and the success reply both completed;
`githubExc` — `create_repo` raised `GithubException` (the only requesting
PyGithub call in the block);
`preCallExc` — some exception was raised before `create_repo` (token
lookup, client construction), so no creation call was made;
`replyFloodWait` — `create_repo` succeeded and the `$unset` ran, then the
success `reply_text` raised pyrogram's `FloodWait` rate-limit signal. -/
inductive CreateRepoResult where
  | success (html_url : String)
  | githubExc (msg : String)
  | preCallExc (msg : String)
  | replyFloodWait (html_url : String) (seconds : Nat) (msg : String)
deriving Repr, DecidableEq

/-- Observable result of one `handle_repo_visibility` invocation. -/
structure VisResult where
  state : BotState
  replies : List String
  createCalls : List CreateRepoArgs
  sleeps : List Nat
deriving Repr, DecidableEq

/-- `handle_repo_visibility` (src/bot.py:365-398).  The
`user_doc["repo_name"]` / `user_doc["repo_description"]` lookups happen
before the `try` block: a missing document or field raises an uncaught
`TypeError` / `KeyError`, modelled by `Except.error` (nothing is replied,
no creation call is made).  In the `except` chain, `except GithubException`
is tried first, then `except Exception`; since pyrogram's `FloodWait`
derives from `Exception`, the trailing `except FloodWait` clause
(src/bot.py:395-398) is unreachable, so a rate-limit signal lands in the
generic clause: an "Error:" reply, no sleep and no retry. -/
def handle_repo_visibility (st : BotState) (data : String)
    (res : CreateRepoResult) : Except String VisResult :=
  match st.user with
  | none => .error "TypeError"
  | some doc =>
    let is_private := data = "repo_private"
    match doc.repo_name with
    | none => .error "KeyError"
    | some repo_name =>
      match doc.repo_description with
      | none => .error "KeyError"
      | some description =>
        let args : CreateRepoArgs :=
          { name := repo_name, description := description,
            is_private := is_private, auto_init := true }
        match res with
        | .success url =>
          let doc' := { doc with repo_step := none, repo_name := none,
                                 repo_description := none }
          .ok { state := { st with user := some doc' },
                replies := ["✅ Repository created successfully!\nName: " ++ repo_name
                  ++ "\nURL: " ++ url ++ "\nVisibility: "
                  ++ (if is_private then "Private" else "Public")],
                createCalls := [args], sleeps := [] }
        | .githubExc m =>
          -- `except GithubException`: error reported, NO `$unset` — the
          -- draft fields survive the failure
          .ok { state := st,
                replies := ["❌ Failed to create repository: " ++ m],
                createCalls := [args], sleeps := [] }
        | .preCallExc m =>
          .ok { state := st, replies := ["❌ Error: " ++ m],
                createCalls := [], sleeps := [] }
        | .replyFloodWait _ _ m =>
          -- FloodWait derives from Exception, so it is caught by the
          -- earlier `except Exception` clause: generic error reply, no
          -- sleep, no retry (the dedicated clause at 395-398 is dead)
          let doc' := { doc with repo_step := none, repo_name := none,
                                 repo_description := none }
          .ok { state := { st with user := some doc' },
                replies := ["❌ Error: " ++ m],
                createCalls := [args], sleeps := [] }

end RepoBot

open Relay RepoBot

/-! ## Shared concrete states for witnesses and counterexamples -/

/-- A user document holding a complete draft at the `visibility` step
(name "my-new-repo", sentinel description). -/
def exDraftDoc : UserDoc :=
  { repo_step := some "visibility", repo_name := some "my-new-repo",
    repo_description := some none }

/-- A fully-credentialled user state holding `exDraftDoc`. -/
def exDraftState : BotState :=
  { user := some exDraftDoc, session := some "SESSION", githubToken := some "TOKEN" }

/-- External-outcome bundle whose entries are all failures; individual
fields are overridden per test. -/
def exExt : LoginExt :=
  { sendCode := .phoneNumberInvalid, signIn := .phoneCodeInvalid,
    checkPassword := .otherError "x", tokenCheck := .githubError "bad" }

/-! ## C1 -/

/-- C1 counterexample: with a complete draft at the `visibility` step, a
hosting-platform rejection (`GithubException`) is reported but the state is
returned UNCHANGED — `repo_step` is still `"visibility"` and `repo_name`,
`repo_description` are still present, refuting the claim that the RepoDraft
is cleared on failure. -/
theorem C1_cex_failure_keeps_draft :
    handle_repo_visibility exDraftState "repo_public"
        (.githubExc "name already exists on this account")
      = .ok { state := exDraftState,
              replies := ["❌ Failed to create repository: name already exists on this account"],
              createCalls := [{ name := "my-new-repo", description := none,
                                is_private := false, auto_init := true }],
              sleeps := [] }
    ∧ exDraftState.user = some exDraftDoc
    ∧ exDraftDoc.repo_step = some "visibility" := by
  exact ⟨rfl, rfl, rfl⟩

/-- C1 (amended): when the visibility step invokes the Repository Creator,
a platform rejection is reported to the user but the RepoDraft is NOT
cleared — the state is returned unchanged, so the draft survives the
failure; only the success path clears `repo_step`, `repo_name` and
`repo_description`. -/
theorem C1_visibility_outcomes (st : BotState) (doc : UserDoc)
    (data m nm url : String) (d : Option String)
    (hu : st.user = some doc) (hn : doc.repo_name = some nm)
    (hd : doc.repo_description = some d) :
    handle_repo_visibility st data (.githubExc m)
      = .ok { state := st,
              replies := ["❌ Failed to create repository: " ++ m],
              createCalls := [{ name := nm, description := d,
                                is_private := (data = "repo_private"),
                                auto_init := true }],
              sleeps := [] }
    ∧ ∃ doc', handle_repo_visibility st data (.success url)
        = .ok { state := { st with user := some doc' },
                replies := ["✅ Repository created successfully!\nName: " ++ nm
                  ++ "\nURL: " ++ url ++ "\nVisibility: "
                  ++ (if data = "repo_private" then "Private" else "Public")],
                createCalls := [{ name := nm, description := d,
                                  is_private := (data = "repo_private"),
                                  auto_init := true }],
                sleeps := [] }
      ∧ doc'.repo_step = none ∧ doc'.repo_name = none
      ∧ doc'.repo_description = none := by
  refine ⟨?_, ⟨{ doc with repo_step := none, repo_name := none,
                          repo_description := none }, ?_, rfl, rfl, rfl⟩⟩ <;>
    simp [handle_repo_visibility, hu, hn, hd]

/-- Witness for C1 (amended) at the concrete draft state. -/
theorem C1_visibility_outcomes_witness :
    handle_repo_visibility exDraftState "repo_public" (.githubExc "dup")
      = .ok { state := exDraftState,
              replies := ["❌ Failed to create repository: dup"],
              createCalls := [{ name := "my-new-repo", description := none,
                                is_private := ("repo_public" = "repo_private"),
                                auto_init := true }],
              sleeps := [] } := by
  exact (C1_visibility_outcomes exDraftState exDraftDoc "repo_public" "dup"
    "my-new-repo" "https://github.com/u/my-new-repo" none rfl rfl rfl).1

/-- The user document after the login-success `$unset` (src/bot.py:218,237):
`login_step`, `phone` and `phone_code_hash` all removed. -/
def RepoBot.UserDoc.clearLogin (doc : UserDoc) : UserDoc :=
  { doc with login_step := none, phone := none, phone_code_hash := none }

/-- The user document after the repository-wizard `$unset` (src/bot.py:384):
`repo_step`, `repo_name` and `repo_description` all removed. -/
def RepoBot.UserDoc.clearDraft (doc : UserDoc) : UserDoc :=
  { doc with repo_step := none, repo_name := none, repo_description := none }

/-! ## C2 -/

/-- C2: whenever the login sub-flow completes successfully — the `code`
step with a direct sign-in success, or the `password` step succeeding after
a second factor was required — the exported session string is persisted to
StoredSession and the LoginState is cleared entirely: `login_step`, `phone`
and `phone_code_hash` are all removed. -/
theorem C2_login_success_persists_and_clears (st : BotState) (doc : UserDoc)
    (text p h sess : String) (ext : LoginExt) (hu : st.user = some doc)
    (hcase :
      (doc.login_step = some "code" ∧ doc.phone = some p
        ∧ doc.phone_code_hash = some h ∧ ext.signIn = .success sess)
      ∨ (doc.login_step = some "password" ∧ doc.phone = some p
        ∧ ext.checkPassword = .success sess)) :
    ∃ st' doc', login_steps st text ext
        = .ok (st', ["✅ Telegram login successful! Now use GitHub login or /create."])
      ∧ st'.session = some sess
      ∧ st'.user = some doc'
      ∧ doc'.login_step = none ∧ doc'.phone = none ∧ doc'.phone_code_hash = none := by
  rcases hcase with ⟨hs, hp, hh, hr⟩ | ⟨hs, hp, hr⟩
  · have heq : login_steps st text ext
        = .ok ({ st with session := some sess, user := some doc.clearLogin },
               ["✅ Telegram login successful! Now use GitHub login or /create."]) := by
      simp [login_steps, UserDoc.clearLogin, hu, hs, hp, hh, hr]
    exact ⟨_, doc.clearLogin, heq, rfl, rfl, rfl, rfl, rfl⟩
  · have heq : login_steps st text ext
        = .ok ({ st with session := some sess, user := some doc.clearLogin },
               ["✅ Telegram login successful! Now use GitHub login or /create."]) := by
      simp [login_steps, UserDoc.clearLogin, hu, hs, hp, hr]
    exact ⟨_, doc.clearLogin, heq, rfl, rfl, rfl, rfl, rfl⟩

/-- Witness for C2 at concrete states: the `code`-step success and the
`password`-step success. -/
theorem C2_login_success_witness :
    (∃ st' doc', login_steps
        { user := some { login_step := some "code", phone := some "+15550100",
                         phone_code_hash := some "hash1" },
          session := none, githubToken := none }
        "12345" { exExt with signIn := .success "EXPORTED1" }
        = .ok (st', ["✅ Telegram login successful! Now use GitHub login or /create."])
      ∧ st'.session = some "EXPORTED1" ∧ st'.user = some doc'
      ∧ doc'.login_step = none ∧ doc'.phone = none ∧ doc'.phone_code_hash = none)
    ∧ (∃ st' doc', login_steps
        { user := some { login_step := some "password", phone := some "+15550100",
                         phone_code_hash := some "hash1" },
          session := none, githubToken := none }
        "pw" { exExt with checkPassword := .success "EXPORTED2" }
        = .ok (st', ["✅ Telegram login successful! Now use GitHub login or /create."])
      ∧ st'.session = some "EXPORTED2" ∧ st'.user = some doc'
      ∧ doc'.login_step = none ∧ doc'.phone = none ∧ doc'.phone_code_hash = none) := by
  constructor
  · exact C2_login_success_persists_and_clears _ _ "12345" "+15550100" "hash1"
      "EXPORTED1" _ rfl (Or.inl ⟨rfl, rfl, rfl, rfl⟩)
  · exact C2_login_success_persists_and_clears _ _ "pw" "+15550100" "hash1"
      "EXPORTED2" _ rfl (Or.inr ⟨rfl, rfl, rfl⟩)

/-! ## C3 -/

/-- C3 counterexample: in `handle_repo_visibility` the rate-limit signal
(pyrogram `FloodWait`, here asking for a 42-second wait) produces a generic
error reply with NO sleep and NO retry — the `except FloodWait` clause at
src/bot.py:395-398 follows `except Exception` and is therefore dead code —
refuting the claim that every rate-limited caller sleeps N seconds and
retries once. -/
theorem C3_cex_bot_floodwait_no_sleep_no_retry :
    (handle_repo_visibility exDraftState "repo_public"
        (.replyFloodWait "https://g/u/r" 42 "FLOOD_WAIT_X 42")).map VisResult.sleeps
      = .ok []
    ∧ (handle_repo_visibility exDraftState "repo_public"
        (.replyFloodWait "https://g/u/r" 42 "FLOOD_WAIT_X 42")).map VisResult.replies
      = .ok ["❌ Error: FLOOD_WAIT_X 42"]
    ∧ (handle_repo_visibility exDraftState "repo_public"
        (.replyFloodWait "https://g/u/r" 42 "FLOOD_WAIT_X 42")).map VisResult.createCalls
      = .ok [{ name := "my-new-repo", description := none,
               is_private := false, auto_init := true }] := by
  exact ⟨rfl, rfl, rfl⟩

/-- C3 (amended): the sleep-and-retry backoff exists only in the
content-relay variant: there a `FloodWait` carrying `n` seconds makes
`/save` sleep `n` seconds and recursively re-enter itself.  In the
repository bot, a `FloodWait` reaching `handle_repo_visibility` is caught
by the general `except Exception` clause (the dedicated clause is
unreachable), so only a generic error is reported — no sleep and no
retry. -/
theorem C3_rate_limit_behavior :
    (∀ (st : RelayState) (cmd : List String) (urlpath : String → String)
        (n : Nat) (rest : List CopyOutcome) (chat : ChatRef) (mid : Int),
      is_logged_in st = true → ¬ cmd.length < 2 →
      resolveLink (path_parts_of (urlpath (cmd.getD 1 ""))) = .ok (chat, mid) →
      save_content st cmd urlpath (.floodWait n :: rest)
        = { replies := (save_content st cmd urlpath rest).replies,
            copyCalls := (chat, mid) :: (save_content st cmd urlpath rest).copyCalls,
            sleeps := n :: (save_content st cmd urlpath rest).sleeps,
            uncaught := (save_content st cmd urlpath rest).uncaught })
    ∧ (∀ (st : BotState) (doc : UserDoc) (data url m nm : String) (n : Nat)
        (d : Option String),
      st.user = some doc → doc.repo_name = some nm →
      doc.repo_description = some d →
      ∃ r, handle_repo_visibility st data (.replyFloodWait url n m) = .ok r
        ∧ r.sleeps = [] ∧ r.replies = ["❌ Error: " ++ m]
        ∧ r.createCalls = [{ name := nm, description := d,
                             is_private := (data = "repo_private"),
                             auto_init := true }]) := by
  constructor
  · intro st cmd urlpath n rest chat mid hlog hlen hres
    simp only [List.getD_eq_getElem?_getD] at hres
    simp [save_content, save_content_step, hlog, hlen, hres]
  · intro st doc data url m nm n d hu hn hd
    have heq : handle_repo_visibility st data (.replyFloodWait url n m)
        = .ok { state := { st with user := some doc.clearDraft },
                replies := ["❌ Error: " ++ m],
                createCalls := [{ name := nm, description := d,
                                  is_private := (data = "repo_private"),
                                  auto_init := true }],
                sleeps := [] } := by
      simp [handle_repo_visibility, UserDoc.clearDraft, hu, hn, hd]
    exact ⟨_, heq, rfl, rfl, rfl⟩

/-- Witness for C3 (amended): the relay sleeps 7 seconds and re-enters
itself on a concrete flooded `/save`; the repository bot reports a generic
error with no sleep. -/
theorem C3_rate_limit_behavior_witness :
    save_content { status := some "active" } ["save", "L"]
        (fun _ => "/c/123/45") [.floodWait 7, .ok]
      = { replies := (save_content { status := some "active" } ["save", "L"]
            (fun _ => "/c/123/45") [.ok]).replies,
          copyCalls := (ChatRef.byId (-223), 45) ::
            (save_content { status := some "active" } ["save", "L"]
              (fun _ => "/c/123/45") [.ok]).copyCalls,
          sleeps := 7 :: (save_content { status := some "active" } ["save", "L"]
            (fun _ => "/c/123/45") [.ok]).sleeps,
          uncaught := (save_content { status := some "active" } ["save", "L"]
            (fun _ => "/c/123/45") [.ok]).uncaught }
    ∧ ∃ r, handle_repo_visibility exDraftState "repo_public"
          (.replyFloodWait "https://g/u/r" 7 "FLOOD_WAIT_X 7") = .ok r
        ∧ r.sleeps = [] ∧ r.replies = ["❌ Error: FLOOD_WAIT_X 7"]
        ∧ r.createCalls = [{ name := "my-new-repo", description := none,
                             is_private := ("repo_public" = "repo_private"),
                             auto_init := true }] := by
  constructor
  · exact C3_rate_limit_behavior.1 { status := some "active" } ["save", "L"]
      (fun _ => "/c/123/45") 7 [.ok] (ChatRef.byId (-223)) 45 rfl
      (by decide) (by rfl)
  · exact C3_rate_limit_behavior.2 exDraftState exDraftDoc "repo_public"
      "https://g/u/r" "FLOOD_WAIT_X 7" "my-new-repo" 7 none rfl rfl rfl

/-! ## C4 -/

/-- C4 counterexample: after the first (successful) visibility-step
invocation clears the draft, a second invocation for the same user is NOT
rejected with a "no active draft" message — it raises an uncaught
`KeyError` at the `user_doc["repo_name"]` lookup (src/bot.py:371), before
any reply and before any creation call. -/
theorem C4_cex_second_call_uncaught_keyerror :
    (handle_repo_visibility exDraftState "repo_public" (.success "https://u1")).map
        (fun r => handle_repo_visibility r.state "repo_public" (.success "https://u2"))
      = .ok (.error "KeyError") := by
  exact rfl

/-- C4 (amended): once a first visibility-step invocation succeeds and
clears the draft, any second invocation on the resulting state fails with
an uncaught `KeyError` before the `try` block — so no second repository is
created and nothing is replied, but there is no "no active draft"
rejection message anywhere in the code. -/
theorem C4_second_invocation_uncaught (st : BotState) (data url : String)
    (r : VisResult) (h : handle_repo_visibility st data (.success url) = .ok r)
    (data2 : String) (res2 : CreateRepoResult) :
    handle_repo_visibility r.state data2 res2 = .error "KeyError" := by
  cases hu : st.user with
  | none => simp [handle_repo_visibility, hu] at h
  | some doc =>
    cases hn : doc.repo_name with
    | none => simp [handle_repo_visibility, hu, hn] at h
    | some nm =>
      cases hd : doc.repo_description with
      | none => simp [handle_repo_visibility, hu, hn, hd] at h
      | some d =>
        simp [handle_repo_visibility, hu, hn, hd] at h
        rw [← h]
        simp [handle_repo_visibility]

/-- Witness for C4 (amended) at the concrete draft state. -/
theorem C4_second_invocation_uncaught_witness :
    handle_repo_visibility
        { state := { user := some { repo_step := none, repo_name := none,
                                    repo_description := none },
                     session := some "SESSION", githubToken := some "TOKEN" },
          replies := ["✅ Repository created successfully!\nName: my-new-repo\nURL: https://u1\nVisibility: Public"],
          createCalls := [{ name := "my-new-repo", description := none,
                            is_private := false, auto_init := true }],
          sleeps := ([] : List Nat) : VisResult }.state
        "repo_public" (.success "https://u2")
      = .error "KeyError" := by
  exact C4_second_invocation_uncaught exDraftState "repo_public" "https://u1"
    _ rfl "repo_public" (.success "https://u2")

/-! ## C5 -/

/-- C5: the "create repository" entry path is gated on both credentials:
with no StoredSession the user is told to complete the Telegram login
first, and with a StoredSession but no StoredGithubToken the user is told
to complete the GitHub login first; in both cases the state — in
particular `repo_step` — is returned unchanged, so the wizard is not
entered. -/
theorem C5_create_repo_gated (st : BotState) :
    (st.session = none →
      createRepoAction st
        = (st, ["❌ Please login to Telegram first using /start > Telegram Login."]))
    ∧ (st.session ≠ none → st.githubToken = none →
      createRepoAction st
        = (st, ["❌ Please login to GitHub first using /start > GitHub Login."])) := by
  constructor
  · intro h
    simp [createRepoAction, create_command, h]
  · intro h1 h2
    simp [createRepoAction, create_command, h1, h2]

/-- Witness for C5: a user with neither credential, and a user holding only
the Telegram session. -/
theorem C5_create_repo_gated_witness :
    createRepoAction { user := some {}, session := none, githubToken := none }
      = ({ user := some {}, session := none, githubToken := none },
         ["❌ Please login to Telegram first using /start > Telegram Login."])
    ∧ createRepoAction { user := some {}, session := some "S", githubToken := none }
      = ({ user := some {}, session := some "S", githubToken := none },
         ["❌ Please login to GitHub first using /start > GitHub Login."]) := by
  constructor
  · exact (C5_create_repo_gated _).1 rfl
  · exact (C5_create_repo_gated _).2 (by simp) rfl

/-! ## C6 -/

/-- C6: in the `description` step, any input whose trimmed, lower-cased
form is "none" is stored as an absent description (Python `None`) and the
draft moves to the `visibility` step; choosing "public" there then invokes
the creation call with `private=false` and the absent description. -/
theorem C6_description_sentinel (st : BotState) (doc : UserDoc) (text nm : String)
    (hu : st.user = some doc) (hstep : doc.repo_step = some "description")
    (hnm : doc.repo_name = some nm) (hsent : pyLower (pyTrim text) = "none") :
    ∃ doc', (repo_steps st text).1.user = some doc'
      ∧ doc'.repo_description = some none
      ∧ doc'.repo_step = some "visibility"
      ∧ doc'.repo_name = some nm
      ∧ ∀ url, (handle_repo_visibility (repo_steps st text).1 "repo_public"
            (.success url)).map VisResult.createCalls
          = .ok [{ name := nm, description := none,
                   is_private := false, auto_init := true }] := by
  have hne : ¬ pyLower (pyTrim text) ≠ "none" := by simp [hsent]
  have h1 : repo_steps st text
      = ({ st with user := some { doc with repo_description := some none, repo_step := some "visibility" } },
         ["Choose repository visibility:"]) := by
    simp [repo_steps, hu, hstep, hne]
  refine ⟨{ doc with repo_description := some none, repo_step := some "visibility" },
    by rw [h1], rfl, rfl, hnm, ?_⟩
  intro url
  rw [h1]
  simp [handle_repo_visibility, Except.map, hnm]

/-- Witness for C6: description input "None" (sentinel, mixed case) on a
draft named "my-new-repo". -/
theorem C6_description_sentinel_witness :
    ∃ doc', (repo_steps
        { user := some { repo_step := some "description",
                         repo_name := some "my-new-repo" },
          session := some "S", githubToken := some "T" } "None").1.user = some doc'
      ∧ doc'.repo_description = some none
      ∧ doc'.repo_step = some "visibility"
      ∧ doc'.repo_name = some "my-new-repo"
      ∧ ∀ url, (handle_repo_visibility (repo_steps
            { user := some { repo_step := some "description",
                             repo_name := some "my-new-repo" },
              session := some "S", githubToken := some "T" } "None").1 "repo_public"
            (.success url)).map VisResult.createCalls
          = .ok [{ name := "my-new-repo", description := none,
                   is_private := false, auto_init := true }] := by
  exact C6_description_sentinel _ _ "None" "my-new-repo" rfl rfl rfl rfl

/-! ## C7 -/

/-- C7: in the `github_token` step, when token validation against the
hosting platform fails (`GithubException`), the handler replies with the
"Invalid GitHub token" error and returns the state unchanged: no
StoredGithubToken is written and `login_step` is still `"github_token"`. -/
theorem C7_invalid_token_no_write (st : BotState) (doc : UserDoc)
    (text m : String) (ext : LoginExt) (hu : st.user = some doc)
    (hstep : doc.login_step = some "github_token")
    (hres : ext.tokenCheck = .githubError m) :
    login_steps st text ext = .ok (st, ["❌ Invalid GitHub token: " ++ m]) := by
  simp [login_steps, hu, hstep, hres]

/-- Witness for C7 at a concrete state. -/
theorem C7_invalid_token_no_write_witness :
    login_steps
        { user := some { login_step := some "github_token" },
          session := some "S", githubToken := none }
        "ghp_badtoken" { exExt with tokenCheck := .githubError "401 Bad credentials" }
      = .ok ({ user := some { login_step := some "github_token" },
               session := some "S", githubToken := none },
             ["❌ Invalid GitHub token: 401 Bad credentials"]) := by
  exact C7_invalid_token_no_write _ _ "ghp_badtoken" "401 Bad credentials" _ rfl rfl rfl

/-! ## C8 -/

/-- C8: in the `phone` step, an invalid phone number
(`PhoneNumberInvalid`) is reported and the state is returned unchanged:
`login_step` is still `"phone"` and no StoredSession is written. -/
theorem C8_invalid_phone_no_session (st : BotState) (doc : UserDoc)
    (text : String) (ext : LoginExt) (hu : st.user = some doc)
    (hstep : doc.login_step = some "phone")
    (hres : ext.sendCode = .phoneNumberInvalid) :
    login_steps st text ext = .ok (st, ["❌ Invalid phone number. Try again."]) := by
  simp [login_steps, hu, hstep, hres]

/-- Witness for C8 at a concrete state. -/
theorem C8_invalid_phone_no_session_witness :
    login_steps
        { user := some { login_step := some "phone" },
          session := none, githubToken := none }
        "not-a-phone" exExt
      = .ok ({ user := some { login_step := some "phone" },
               session := none, githubToken := none },
             ["❌ Invalid phone number. Try again."]) := by
  exact C8_invalid_phone_no_session _ _ "not-a-phone" exExt rfl rfl rfl

/-! ## C9 -/

/-- C9: in the content-relay variant, a banned user who sends
`/login <password>` with the correct shared password is set back to
"active" (the handler calls `add_user` without checking ban status), after
which `is_logged_in` returns true — a ban does not survive a
correct-password re-login. -/
theorem C9_ban_cleared_by_relogin (st : RelayState) (pw : String)
    (_hban : st.status = some "banned") :
    (Relay.login st ["login", pw] pw).1 = { status := some "active" }
    ∧ is_logged_in (Relay.login st ["login", pw] pw).1 = true := by
  constructor <;> simp [Relay.login, add_user, is_logged_in]

/-- Witness for C9: a concretely banned user re-logging in with the
correct password. -/
theorem C9_ban_cleared_by_relogin_witness :
    (Relay.login { status := some "banned" } ["login", "userpass"] "userpass").1
      = { status := some "active" }
    ∧ is_logged_in
        (Relay.login { status := some "banned" } ["login", "userpass"] "userpass").1
      = true := by
  exact C9_ban_cleared_by_relogin { status := some "banned" } "userpass" rfl

/-! ## C10 -/

/-- C10: the `/save` link parser: a path of the form `c/X/Y` with integer
segments X and Y copies from chat id `-100 - X` with message id `Y`; any
other path with at least two segments (first segment not "c", second an
integer) copies from chat `"@" ++ first` with message id the second
segment's integer; a path with fewer than two segments yields the
"Invalid link format." reply and no copy call. -/
theorem C10_save_link_resolution (st : RelayState) (link : String)
    (urlpath : String → String) (hlog : is_logged_in st = true) :
    (∀ (s1 s2 : String) (rest : List String) (x y : Int),
      path_parts_of (urlpath link) = "c" :: s1 :: s2 :: rest →
      pyInt s1 = some x → pyInt s2 = some y →
      save_content st ["save", link] urlpath [.ok]
        = ⟨["Content saved and sent!"], [(ChatRef.byId (-100 - x), y)], [], none⟩)
    ∧ (∀ (s0 s1 : String) (rest : List String) (y : Int),
      path_parts_of (urlpath link) = s0 :: s1 :: rest →
      s0 ≠ "c" → pyInt s1 = some y →
      save_content st ["save", link] urlpath [.ok]
        = ⟨["Content saved and sent!"], [(ChatRef.byUsername ("@" ++ s0), y)], [], none⟩)
    ∧ ((path_parts_of (urlpath link)).length < 2 →
      ∀ outcomes, save_content st ["save", link] urlpath outcomes
        = ⟨["Invalid link format."], [], [], none⟩) := by
  refine ⟨?_, ?_, ?_⟩
  · intro s1 s2 rest x y hparts hx hy
    have hres : resolveLink (path_parts_of (urlpath link))
        = .ok (ChatRef.byId (-100 - x), y) := by
      rw [hparts]
      simp [resolveLink, hx, hy]
    simp [save_content, save_content_step, hlog, hres]
  · intro s0 s1 rest y hparts hs0 hy
    have hres : resolveLink (path_parts_of (urlpath link))
        = .ok (ChatRef.byUsername ("@" ++ s0), y) := by
      rw [hparts]
      simp [resolveLink, hs0, hy]
    simp [save_content, save_content_step, hlog, hres]
  · intro hlen outcomes
    have hres : resolveLink (path_parts_of (urlpath link)) = .error .valueError := by
      simp [resolveLink, hlen]
    cases outcomes <;> simp [save_content, save_content_step, hlog, hres]

/-- Witness for C10: the three clauses at concrete links — a private
`c/123/45` link, a public `mychannel/77` link, and a one-segment path. -/
theorem C10_save_link_resolution_witness :
    save_content { status := some "active" } ["save", "L1"]
        (fun _ => "/c/123/45") [.ok]
      = ⟨["Content saved and sent!"], [(ChatRef.byId (-100 - 123), 45)], [], none⟩
    ∧ save_content { status := some "active" } ["save", "L2"]
        (fun _ => "/mychannel/77") [.ok]
      = ⟨["Content saved and sent!"], [(ChatRef.byUsername ("@" ++ "mychannel"), 77)], [], none⟩
    ∧ save_content { status := some "active" } ["save", "L3"]
        (fun _ => "/x") [.ok]
      = ⟨["Invalid link format."], [], [], none⟩ := by
  refine ⟨?_, ?_, ?_⟩
  · exact (C10_save_link_resolution { status := some "active" } "L1"
      (fun _ => "/c/123/45") rfl).1 "123" "45" [] 123 45 rfl rfl rfl
  · exact (C10_save_link_resolution { status := some "active" } "L2"
      (fun _ => "/mychannel/77") rfl).2.1 "mychannel" "77" [] 77 rfl
      (by decide) rfl
  · exact (C10_save_link_resolution { status := some "active" } "L3"
      (fun _ => "/x") rfl).2.2 (by decide) [.ok]
